import Mathlib

/-!
Verification development for the kertiteto structural-geometry core.

Shallow embedding choices:
* All JS numbers are embedded as rationals (ℚ); the arithmetic of the source on
  IEEE doubles is idealised as exact rational arithmetic.
* The pitch angle enters the source only through `Math.cos(pitch·DEG)` and
  `Math.tan(pitch·DEG)`.  These two (irrational) values are abstracted as
  explicit parameters `cosPitch`, `tanPitch`; the input domain
  0° < pitch < 90° corresponds to `0 < cosPitch ≤ 1` and `0 < tanPitch`.
* `Math.cos(Math.PI / 4)` (the knee-brace 45° leg factor, √2/2) is likewise
  abstracted as a parameter `cos45`.
* Division by zero in ℚ yields 0 where JS would yield ±Infinity or NaN; every
  theorem below either carries hypotheses that keep denominators nonzero or
  comments on the divergence explicitly.
-/

namespace Kertiteto

/-- Fixed plumb cut height for all bird mouths (geometry.ts):
keeps 4/5 of the 15 cm rafter depth. -/
def BIRD_MOUTH_PLUMB_HEIGHT : ℚ := 0.03

/-- Maximum rafter bay spacing in meters (geometry.ts). -/
def MAX_RAFTER_SPACING : ℚ := 0.9

/-- Maximum unsupported span between pillar rows (m).  Modelled from the spec:
the current geometry module is not under src (the geometry.ts snapshot in src
predates `MAX_UNSUPPORTED_SPAN`, which structure.ts imports); the spec names
the threshold and the tests of the repository pin its value via
`pillarCount(20) = 14` with `bays = ceil(19.7 / 3.5)`. -/
def MAX_UNSUPPORTED_SPAN : ℚ := 3.5

-- Timber cross-section dimensions (m), from structure.ts.
def PILLAR_SIZE : ℚ := 0.15
def PURLIN_SIZE : ℚ := 0.15
def RIDGE_SIZE : ℚ := 0.10
def RAFTER_WIDTH : ℚ := 0.075
def RAFTER_DEPTH : ℚ := 0.15
def RIDGE_TIE_NOTCH : ℚ := 0.05
def RIDGE_TIE_WIDTH : ℚ := 0.05
def RIDGE_TIE_DEPTH : ℚ := 0.15
def KNEE_BRACE_SIZE : ℚ := 0.1
def KNEE_BRACE_LENGTH : ℚ := 1.0
def PILLAR_HEIGHT : ℚ := 2.4

/-- Bird mouth cut dimensions (geometry.ts `BirdMouthGeometry`). -/
structure BirdMouthGeometry where
  seatDepth : ℚ
  plumbHeight : ℚ
  deriving Repr, DecidableEq

/-- Ridge height above top of base purlin (geometry.ts):
`H = (width / 2) * tan(pitch)`; `tanPitch` abstracts `Math.tan(pitch·DEG)`. -/
def ridgeHeight (width tanPitch : ℚ) : ℚ := width / 2 * tanPitch

/-- Rafter length along slope (geometry.ts):
`run = width/2 + eavesOverhang`, `length = run / cos(pitch)`. -/
def rafterLength (width cosPitch eavesOverhang : ℚ) : ℚ :=
  (width / 2 + eavesOverhang) / cosPitch

/-- Bird mouth at the base purlin (geometry.ts): plumb cut fixed at 3 cm,
seat depth `plumbHeight / tan(pitch)`. -/
def birdMouthAtBasePurlin (tanPitch : ℚ) : BirdMouthGeometry :=
  { plumbHeight := BIRD_MOUTH_PLUMB_HEIGHT
    seatDepth := BIRD_MOUTH_PLUMB_HEIGHT / tanPitch }

/-- Bird mouth at the ridge purlin (geometry.ts): seat depth fixed at 5 cm,
plumb cut fixed at 3 cm; the pitch argument is unused in the source. -/
def birdMouthAtRidgePurlin (_tanPitch : ℚ) : BirdMouthGeometry :=
  { seatDepth := 0.05
    plumbHeight := BIRD_MOUTH_PLUMB_HEIGHT }

/-- Number of pillar rows.  Modelled from the spec:
`rows = ceil(innerSpan / MAX_UNSUPPORTED_SPAN) + 1` with
`innerSpan = length − 2·pillarSize`; the implementing geometry.ts is not under
src (only its tests and its caller structure.ts are). -/
def pillarRowCount (length : ℚ) : ℤ :=
  ⌈(length - 2 * PILLAR_SIZE) / MAX_UNSUPPORTED_SPAN⌉ + 1

/-- Total number of pillars (rows × 2).  Modelled from the spec, see
`pillarRowCount`. -/
def pillarCount (length : ℚ) : ℤ := 2 * pillarRowCount length

-- ── Data model (types.ts) ─────────────────────────────────────────────────────

/-- Point in the coordinate frame of the model (types.ts `Point3D`). -/
structure Point3D where
  x : ℚ
  y : ℚ
  z : ℚ
  deriving Repr, DecidableEq

/-- Pillar: bottom-center base plus height (types.ts `Pillar`). -/
structure Pillar where
  base : Point3D
  height : ℚ
  deriving Repr, DecidableEq

/-- Purlin: centerline endpoints plus square cross-section (types.ts `Purlin`).
The source field `end` is a Lean keyword; it is embedded as `endP`. -/
structure Purlin where
  start : Point3D
  endP : Point3D
  width : ℚ
  height : ℚ
  deriving Repr, DecidableEq

/-- Tie beam (types.ts `TieBeam`), source field `end` embedded as `endP`. -/
structure TieBeam where
  start : Point3D
  endP : Point3D
  deriving Repr, DecidableEq

/-- Bird mouth attached to a rafter (types.ts `BirdMouth`). -/
structure BirdMouth where
  seatDepth : ℚ
  plumbHeight : ℚ
  distanceFromEave : ℚ
  deriving Repr, DecidableEq

/-- Rafter (types.ts `Rafter`). -/
structure Rafter where
  eaveEnd : Point3D
  ridgeEnd : Point3D
  birdMouthBase : BirdMouth
  birdMouthRidge : BirdMouth
  length : ℚ
  deriving Repr, DecidableEq

/-- Ridge tie, trapezoidal cross-section (types.ts `RidgeTie`). -/
structure RidgeTie where
  x : ℚ
  yTop : ℚ
  yBottom : ℚ
  zHalfTop : ℚ
  zHalfBottom : ℚ
  deriving Repr, DecidableEq

/-- Knee brace (types.ts `KneeBrace`), source field `end` embedded as `endP`. -/
structure KneeBrace where
  start : Point3D
  endP : Point3D
  deriving Repr, DecidableEq

/-- Input parameters (types.ts `InputParams`).  The `pitch` field is carried
outside this record as the abstracted pair `(cosPitch, tanPitch)`. -/
structure InputParams where
  width : ℚ
  length : ℚ
  eavesOverhang : ℚ
  gableOverhang : ℚ
  deriving Repr, DecidableEq

/-- Aggregate structural model (types.ts `StructureModel`).
The `totalLength` field is modelled from the spec: the current structure.ts is
not under src, but the roofing module in src reads `structure.totalLength`,
and the spec fixes the longitudinal span to `length + 2·gableOverhang`
(eaves run `2×(length+2·gableOverhang)`). -/
structure StructureModel where
  params : InputParams
  ridgeHeight : ℚ
  pillarHeight : ℚ
  pillars : List Pillar
  basePurlins : List Purlin
  ridgePurlin : Purlin
  tieBeams : List TieBeam
  ridgeTies : List RidgeTie
  rafters : List Rafter
  rafterSpacing : ℚ
  kneeBraces : List KneeBrace
  totalLength : ℚ
  deriving Repr, DecidableEq

-- ── Structure assembler (structure.ts, current revision) ──────────────────────

/-- Vertical level of the base-purlin centerline (structure.ts `yPurlinCenter`). -/
def yPurlinCenter : ℚ := PILLAR_HEIGHT + PURLIN_SIZE / 2

/-- Vertical level of the base-purlin top face (structure.ts `yBasePurlinTop`). -/
def yBasePurlinTop : ℚ := PILLAR_HEIGHT + PURLIN_SIZE

/-- Ridge purlin top via the bird-line rule (structure.ts `yRidgePurlinTop`):
`yBasePurlinTop + ridgeHeight(width − RIDGE_SIZE, pitch)`. -/
def yRidgePurlinTop (width tanPitch : ℚ) : ℚ :=
  yBasePurlinTop + ridgeHeight (width - RIDGE_SIZE) tanPitch

/-- Ridge purlin centerline level (structure.ts `yRidgePurlinCenter`). -/
def yRidgePurlinCenter (width tanPitch : ℚ) : ℚ :=
  yRidgePurlinTop width tanPitch - RIDGE_SIZE / 2

/-- Ridge purlin bottom level (structure.ts `yRidgePurlinBottom`). -/
def yRidgePurlinBottom (width tanPitch : ℚ) : ℚ :=
  yRidgePurlinCenter width tanPitch - RIDGE_SIZE / 2

/-- Rafter centerline vertical offset above the bearing surface
(structure.ts `rafterYOffset`):
`- BIRD_MOUTH_PLUMB_HEIGHT + RAFTER_DEPTH / cosPitch / 2`. -/
def rafterYOffset (cosPitch : ℚ) : ℚ :=
  -BIRD_MOUTH_PLUMB_HEIGHT + RAFTER_DEPTH / cosPitch / 2

/-- Rafter centerline height at the base bearing plane
(structure.ts `yRafterAtBase`). -/
def yRafterAtBase (cosPitch : ℚ) : ℚ := yBasePurlinTop + rafterYOffset cosPitch

/-- Rafter centerline height at the ridge (structure.ts `yRafterAtRidge`). -/
def yRafterAtRidge (width cosPitch tanPitch : ℚ) : ℚ :=
  yRafterAtBase cosPitch + ridgeHeight width tanPitch

/-- Rafter eave-end height (structure.ts `yEave`). -/
def yEave (cosPitch tanPitch eavesOverhang : ℚ) : ℚ :=
  yRafterAtBase cosPitch - eavesOverhang * tanPitch

/-- Longitudinal minimum extent (structure.ts `xMin`). -/
def xMin (length gableOverhang : ℚ) : ℚ := -(length / 2 + gableOverhang)

/-- Longitudinal maximum extent (structure.ts `xMax`). -/
def xMax (length gableOverhang : ℚ) : ℚ := length / 2 + gableOverhang

/-- Base purlin center inset (structure.ts `zPurlin`). -/
def zPurlin (width : ℚ) : ℚ := width / 2 - PURLIN_SIZE / 2

/-- Helper `makePurlin` from structure.ts. -/
def makePurlin (x0 x1 y z size : ℚ) : Purlin :=
  { start := ⟨x0, y, z⟩
    endP := ⟨x1, y, z⟩
    width := size
    height := size }

/-- Helper `makeTieBeam` from structure.ts. -/
def makeTieBeam (x y zHalf : ℚ) : TieBeam :=
  { start := ⟨x, y, -zHalf⟩
    endP := ⟨x, y, zHalf⟩ }

/-- Pillar row X positions (structure.ts `buildPillarXPositions`): `rows`
evenly spaced positions from `-xHalf` to `+xHalf`, `xHalf = length/2 −
PILLAR_SIZE/2`. -/
def buildPillarXPositions (length : ℚ) (nPillars : ℤ) : List ℚ :=
  let xHalf := length / 2 - PILLAR_SIZE / 2
  let rows := (nPillars / 2).toNat
  (List.range rows).map fun (i : ℕ) =>
    -xHalf + (i : ℚ) * (2 * xHalf) / ((rows : ℚ) - 1)

/-- Pillars (structure.ts `buildPillars`): two per row at `z = ±zHalf`, plus a
ridge pillar at `z = 0` for corner (first and last) rows only, when the
cross-sectional inner span exceeds `MAX_UNSUPPORTED_SPAN`. -/
def buildPillars (width : ℚ) (xPositions : List ℚ) (ridgePillarHeight : ℚ) :
    List Pillar :=
  let zHalf := width / 2 - PILLAR_SIZE / 2
  let innerSpan := width - 2 * PILLAR_SIZE
  xPositions.enum.flatMap fun p =>
    [Pillar.mk ⟨p.2, 0, -zHalf⟩ PILLAR_HEIGHT,
     Pillar.mk ⟨p.2, 0, zHalf⟩ PILLAR_HEIGHT] ++
    (if MAX_UNSUPPORTED_SPAN < innerSpan ∧ (p.1 = 0 ∨ p.1 = xPositions.length - 1)
     then [Pillar.mk ⟨p.2, 0, 0⟩ ridgePillarHeight]
     else [])

/-- Full purlin run including gable overhangs (structure.ts `purlinLength`). -/
def purlinLength (length gableOverhang : ℚ) : ℚ := length + 2 * gableOverhang

/-- Center-to-center rafter span, first to last gable rafter
(structure.ts `rafterSpanCC`). -/
def rafterSpanCC (length gableOverhang : ℚ) : ℚ :=
  purlinLength length gableOverhang - RAFTER_WIDTH

/-- Number of rafter bays (structure.ts `nBays`):
`Math.ceil(rafterSpanCC / MAX_RAFTER_SPACING)`. -/
def nBays (length gableOverhang : ℚ) : ℤ :=
  ⌈rafterSpanCC length gableOverhang / MAX_RAFTER_SPACING⌉

/-- Number of rafters per slope (structure.ts `nRafters`). -/
def nRafters (length gableOverhang : ℚ) : ℤ := nBays length gableOverhang + 1

/-- Uniform rafter bay spacing (structure.ts `xSpacing`).  When
`nBays ≤ 0` (run not longer than one rafter width) the source divides by zero
(±Infinity/NaN in JS); in ℚ the division then yields 0. -/
def xSpacing (length gableOverhang : ℚ) : ℚ :=
  rafterSpanCC length gableOverhang / (nBays length gableOverhang : ℚ)

/-- Center of the first (gable) rafter (structure.ts `xFirst`). -/
def xFirst (length gableOverhang : ℚ) : ℚ :=
  xMin length gableOverhang + RAFTER_WIDTH / 2

/-- Distance along the rafter from the eave end to the base-purlin centerline
(structure.ts `dBase`). -/
def dBase (cosPitch eavesOverhang : ℚ) : ℚ := eavesOverhang / cosPitch

/-- Distance along the rafter from the eave end to the ridge-purlin centerline
(structure.ts `dRidge`). -/
def dRidge (width cosPitch eavesOverhang : ℚ) : ℚ :=
  (eavesOverhang + width / 2) / cosPitch

/-- X position of rafter `i` (structure.ts: `xFirst + i * xSpacing`). -/
def rafterXPos (length gableOverhang : ℚ) (i : ℕ) : ℚ :=
  xFirst length gableOverhang + (i : ℚ) * xSpacing length gableOverhang

/-- Attach a position along the rafter to bird-mouth geometry
(structure.ts `{ ...bm, distanceFromEave }`). -/
def mkBirdMouth (g : BirdMouthGeometry) (d : ℚ) : BirdMouth :=
  ⟨g.seatDepth, g.plumbHeight, d⟩

/-- Left-slope rafter `i` (structure.ts rafter-pair loop, left push). -/
def mkLeftRafter (width length eavesOverhang gableOverhang cosPitch tanPitch : ℚ)
    (i : ℕ) : Rafter :=
  { eaveEnd := ⟨rafterXPos length gableOverhang i,
                yEave cosPitch tanPitch eavesOverhang,
                -(width / 2 + eavesOverhang)⟩
    ridgeEnd := ⟨rafterXPos length gableOverhang i,
                 yRafterAtRidge width cosPitch tanPitch, 0⟩
    birdMouthBase := mkBirdMouth (birdMouthAtBasePurlin tanPitch)
      (dBase cosPitch eavesOverhang)
    birdMouthRidge := mkBirdMouth (birdMouthAtRidgePurlin tanPitch)
      (dRidge width cosPitch eavesOverhang)
    length := rafterLength width cosPitch eavesOverhang }

/-- Right-slope rafter `i` (structure.ts rafter-pair loop, right push). -/
def mkRightRafter (width length eavesOverhang gableOverhang cosPitch tanPitch : ℚ)
    (i : ℕ) : Rafter :=
  { eaveEnd := ⟨rafterXPos length gableOverhang i,
                yEave cosPitch tanPitch eavesOverhang,
                width / 2 + eavesOverhang⟩
    ridgeEnd := ⟨rafterXPos length gableOverhang i,
                 yRafterAtRidge width cosPitch tanPitch, 0⟩
    birdMouthBase := mkBirdMouth (birdMouthAtBasePurlin tanPitch)
      (dBase cosPitch eavesOverhang)
    birdMouthRidge := mkBirdMouth (birdMouthAtRidgePurlin tanPitch)
      (dRidge width cosPitch eavesOverhang)
    length := rafterLength width cosPitch eavesOverhang }

/-- Left-slope rafters (structure.ts `leftRafters`). -/
def leftRafters (width length eavesOverhang gableOverhang cosPitch tanPitch : ℚ) :
    List Rafter :=
  (List.range (nRafters length gableOverhang).toNat).map
    (mkLeftRafter width length eavesOverhang gableOverhang cosPitch tanPitch)

/-- Right-slope rafters (structure.ts `rightRafters`). -/
def rightRafters (width length eavesOverhang gableOverhang cosPitch tanPitch : ℚ) :
    List Rafter :=
  (List.range (nRafters length gableOverhang).toNat).map
    (mkRightRafter width length eavesOverhang gableOverhang cosPitch tanPitch)

/-- Ridge tie top level (structure.ts `yRidgeTieTop`). -/
def yRidgeTieTop (width tanPitch : ℚ) : ℚ :=
  yRidgePurlinTop width tanPitch - RIDGE_SIZE + RIDGE_TIE_NOTCH

/-- Ridge tie bottom level (structure.ts `yRidgeTieBottom`). -/
def yRidgeTieBottom (width tanPitch : ℚ) : ℚ :=
  yRidgeTieTop width tanPitch - RIDGE_TIE_DEPTH

/-- Rafter top face height at the ridge (structure.ts `yRafterTop`). -/
def yRafterTop (width cosPitch tanPitch : ℚ) : ℚ :=
  yRafterAtRidge width cosPitch tanPitch + RAFTER_DEPTH / (2 * cosPitch)

/-- Ridge tie half-width at its top (structure.ts `zHalfTop`). -/
def zHalfTop (width cosPitch tanPitch : ℚ) : ℚ :=
  (yRafterTop width cosPitch tanPitch - yRidgeTieTop width tanPitch) / tanPitch

/-- Ridge tie half-width at its bottom (structure.ts `zHalfBottom`). -/
def zHalfBottom (width cosPitch tanPitch : ℚ) : ℚ :=
  zHalfTop width cosPitch tanPitch + RIDGE_TIE_DEPTH / tanPitch

/-- Ridge tie X offset from its rafter (structure.ts `xOffset`). -/
def tieXOffset : ℚ := RAFTER_WIDTH / 2 + RIDGE_TIE_WIDTH / 2

/-- Ridge tie at position `x` (structure.ts ridge-tie record). -/
def mkRidgeTie (width cosPitch tanPitch x : ℚ) : RidgeTie :=
  { x := x
    yTop := yRidgeTieTop width tanPitch
    yBottom := yRidgeTieBottom width tanPitch
    zHalfTop := zHalfTop width cosPitch tanPitch
    zHalfBottom := zHalfBottom width cosPitch tanPitch }

/-- Ridge ties (structure.ts ridge-tie loop): single tie on the inner side at
each gable rafter, a straddling pair at each interior rafter. -/
def ridgeTies (width length gableOverhang cosPitch tanPitch : ℚ) :
    List RidgeTie :=
  let n := (nRafters length gableOverhang).toNat
  (List.range n).flatMap fun i =>
    let xRafter := rafterXPos length gableOverhang i
    if i = 0 then
      [mkRidgeTie width cosPitch tanPitch (xRafter + tieXOffset)]
    else if i = n - 1 then
      [mkRidgeTie width cosPitch tanPitch (xRafter - tieXOffset)]
    else
      [mkRidgeTie width cosPitch tanPitch (xRafter - tieXOffset),
       mkRidgeTie width cosPitch tanPitch (xRafter + tieXOffset)]

/-- JS `Math.sign`. -/
def jsSign (q : ℚ) : ℚ := if q < 0 then -1 else if 0 < q then 1 else 0

/-- The expression `Math.sign(-q) || 1` of the source: sign pointing toward the center, with
0 replaced by 1. -/
def signToCenter (q : ℚ) : ℚ :=
  if jsSign (-q) = 0 then 1 else jsSign (-q)

/-- Corner knee braces (structure.ts `buildCornerKneeBraces`): at the first and
last pillar rows only, three braces per Z-side.  `cos45` abstracts
`Math.cos(Math.PI / 4)` (= √2/2 in the source). -/
def buildCornerKneeBraces (cos45 : ℚ) (pillarXPositions : List ℚ) (width : ℚ) :
    List KneeBrace :=
  let leg := KNEE_BRACE_LENGTH * cos45
  let zHalf := width / 2 - PILLAR_SIZE / 2
  let yJunction := PILLAR_HEIGHT + PURLIN_SIZE / 2
  let cornerXs := [pillarXPositions.headD 0, pillarXPositions.getLastD 0]
  cornerXs.flatMap fun xP =>
    let sx := signToCenter xP
    ([-zHalf, zHalf] : List ℚ).flatMap fun zP =>
      let sz := signToCenter zP
      [KneeBrace.mk ⟨xP, yJunction - leg, zP⟩ ⟨xP, yJunction, zP + sz * leg⟩,
       KneeBrace.mk ⟨xP, yJunction - leg, zP⟩ ⟨xP + sx * leg, yJunction, zP⟩,
       KneeBrace.mk ⟨xP + sx * leg, yJunction, zP⟩ ⟨xP, yJunction, zP + sz * leg⟩]

/-- The structure assembler (structure.ts `buildStructure`).  The source has no
input validation: every input, valid or not, produces a model. -/
def buildStructure (p : InputParams) (cosPitch tanPitch cos45 : ℚ) :
    StructureModel :=
  let pillarXs := buildPillarXPositions p.length (pillarCount p.length)
  { params := p
    ridgeHeight := ridgeHeight p.width tanPitch
    pillarHeight := PILLAR_HEIGHT
    pillars := buildPillars p.width pillarXs (yRidgePurlinBottom p.width tanPitch)
    basePurlins :=
      [makePurlin (xMin p.length p.gableOverhang) (xMax p.length p.gableOverhang)
         yPurlinCenter (-zPurlin p.width) PURLIN_SIZE,
       makePurlin (xMin p.length p.gableOverhang) (xMax p.length p.gableOverhang)
         yPurlinCenter (zPurlin p.width) PURLIN_SIZE]
    ridgePurlin :=
      makePurlin (xMin p.length p.gableOverhang) (xMax p.length p.gableOverhang)
        (yRidgePurlinCenter p.width tanPitch) 0 RIDGE_SIZE
    tieBeams := pillarXs.map fun x => makeTieBeam x yPurlinCenter (zPurlin p.width)
    ridgeTies :=
      ridgeTies p.width p.length p.gableOverhang cosPitch tanPitch
    rafters :=
      leftRafters p.width p.length p.eavesOverhang p.gableOverhang cosPitch tanPitch ++
      rightRafters p.width p.length p.eavesOverhang p.gableOverhang cosPitch tanPitch
    rafterSpacing := xSpacing p.length p.gableOverhang
    kneeBraces := buildCornerKneeBraces cos45 pillarXs p.width
    totalLength := purlinLength p.length p.gableOverhang }

/-- Height of the centerline of a rafter over a given Z, by linear interpolation
between its stored endpoints (evaluation device for the bearing invariant). -/
def centerlineYAt (r : Rafter) (z : ℚ) : ℚ :=
  r.eaveEnd.y +
    (z - r.eaveEnd.z) * ((r.ridgeEnd.y - r.eaveEnd.y) / (r.ridgeEnd.z - r.eaveEnd.z))

/-- Sign of the slope side of a rafter: −1 for the left slope (eave at negative Z),
+1 for the right slope. -/
def sideSign (r : Rafter) : ℚ := if r.eaveEnd.z < 0 then -1 else 1

-- ── Roofing layer assembler (roofing.ts, current revision) ────────────────────

/-- Meters between roof battens (roofing.ts `ROOF_BATTEN_DISTANCE`). -/
def ROOF_BATTEN_DISTANCE : ℚ := 0.2

/-- Developed widths of the four flashing profiles
(roofing.ts `FLASHING_DEVELOPED_WIDTH`). -/
structure FlashingWidths where
  dripEdge : ℚ
  eavesFlashing : ℚ
  ridgeFlashing : ℚ
  gableFlashing : ℚ
  deriving Repr, DecidableEq

def FLASHING_DEVELOPED_WIDTH : FlashingWidths :=
  { dripEdge := 0.125
    eavesFlashing := 0.250
    ridgeFlashing := 0.540
    gableFlashing := 0.312 }

/-- Meters per flashing piece (roofing.ts `FLASHING_LENGTH`). -/
def FLASHING_LENGTH : ℚ := 2

/-- Meters of overlap between flashing pieces (roofing.ts `FLASHING_OVERLAP`). -/
def FLASHING_OVERLAP : ℚ := 0.1

/-- Counter batten (roofing.ts `CounterBatten`). -/
structure CounterBatten where
  length : ℚ
  deriving Repr, DecidableEq

/-- Roof batten row (roofing.ts `RoofBatten`). -/
structure RoofBatten where
  length : ℚ
  deriving Repr, DecidableEq

/-- A flashing group: piece count and surface (roofing.ts `FlashingGroup`). -/
structure FlashingGroup where
  count : ℤ
  surface : ℚ
  deriving Repr, DecidableEq

/-- The four flashing groups plus total surface (roofing.ts `Flashings`). -/
structure Flashings where
  dripEdge : FlashingGroup
  eavesFlashing : FlashingGroup
  ridgeFlashing : FlashingGroup
  gableFlashing : FlashingGroup
  totalSurface : ℚ
  deriving Repr, DecidableEq

/-- Roofing model (roofing.ts `RoofingModel`); `flashings` is null (none) when
the roofing option is off. -/
structure RoofingModel where
  counterBattens : List CounterBatten
  roofBattens : List RoofBatten
  flashings : Option Flashings
  deriving Repr, DecidableEq

/-- Roofing options (roofing.ts `RoofingOptions`). -/
structure RoofingOptions where
  membrane : Bool
  roofing : Bool
  deriving Repr, DecidableEq

/-- The expression `structure.rafters[0].length` of the source; the list is nonempty for every
model built by `buildStructure` (JS would yield undefined on an empty list;
the embedding defaults to 0 there). -/
def rafterLen0 (s : StructureModel) : ℚ :=
  match s.rafters with
  | [] => 0
  | r :: _ => r.length

/-- Flashing group constructor (roofing.ts local `group`):
`surface = count × FLASHING_LENGTH × devWidth`. -/
def mkFlashingGroup (count : ℤ) (devWidth : ℚ) : FlashingGroup :=
  { count := count
    surface := (count : ℚ) * FLASHING_LENGTH * devWidth }

/-- The roofing assembler (roofing.ts `buildRoofing`). -/
def buildRoofing (s : StructureModel) (options : RoofingOptions) : RoofingModel :=
  let counterBattens : List CounterBatten :=
    if options.membrane then s.rafters.map (fun r => ⟨r.length⟩) else []
  let roofBattens : List RoofBatten :=
    if options.roofing then
      let rowsPerSlope := ⌈rafterLen0 s / ROOF_BATTEN_DISTANCE⌉ + 1 + 1
      let totalRows := (rowsPerSlope * 2).toNat
      List.replicate totalRows ⟨purlinLength s.params.length s.params.gableOverhang⟩
    else []
  let flashings : Option Flashings :=
    if options.roofing then
      let effectiveLen := FLASHING_LENGTH - FLASHING_OVERLAP
      let eavesCount := ⌈s.totalLength * 2 / effectiveLen⌉
      let ridgeCount := ⌈s.totalLength / effectiveLen⌉
      let gableCount := ⌈rafterLen0 s * 4 / effectiveLen⌉
      let dripEdge := mkFlashingGroup eavesCount FLASHING_DEVELOPED_WIDTH.dripEdge
      let eavesFlashing :=
        mkFlashingGroup eavesCount FLASHING_DEVELOPED_WIDTH.eavesFlashing
      let ridgeFlashing :=
        mkFlashingGroup ridgeCount FLASHING_DEVELOPED_WIDTH.ridgeFlashing
      let gableFlashing :=
        mkFlashingGroup gableCount FLASHING_DEVELOPED_WIDTH.gableFlashing
      some { dripEdge := dripEdge
             eavesFlashing := eavesFlashing
             ridgeFlashing := ridgeFlashing
             gableFlashing := gableFlashing
             totalSurface := dripEdge.surface + eavesFlashing.surface +
               ridgeFlashing.surface + gableFlashing.surface }
    else none
  { counterBattens := counterBattens
    roofBattens := roofBattens
    flashings := flashings }

/-- State-passing view of `buildRoofing`: the structure is threaded through the
computation explicitly and returned next to the roofing model.  The source body
contains no assignment to `structure` or to any of its fields, so the threaded
state leaves the function unchanged. -/
def buildRoofingSt (s : StructureModel) (options : RoofingOptions) :
    RoofingModel × StructureModel :=
  (buildRoofing s options, s)

-- ── Helper lemmas ─────────────────────────────────────────────────────────────

/-- Closed form of the centerline height of a left rafter over `z`. -/
lemma centerlineYAt_left (width length eavesOverhang gableOverhang cosPitch tanPitch : ℚ)
    (i : ℕ) (z : ℚ) (h : width / 2 + eavesOverhang ≠ 0) :
    centerlineYAt (mkLeftRafter width length eavesOverhang gableOverhang cosPitch tanPitch i) z =
      yEave cosPitch tanPitch eavesOverhang + (z + (width / 2 + eavesOverhang)) * tanPitch := by
  have hyy : yRafterAtRidge width cosPitch tanPitch -
      yEave cosPitch tanPitch eavesOverhang =
      (width / 2 + eavesOverhang) * tanPitch := by
    simp only [yRafterAtRidge, yEave, ridgeHeight]; ring
  simp only [centerlineYAt, mkLeftRafter]
  rw [show (0 : ℚ) - -(width / 2 + eavesOverhang) = width / 2 + eavesOverhang by ring,
    hyy, mul_div_cancel_left₀ _ h]
  ring

/-- Closed form of the centerline height of a right rafter over `z`. -/
lemma centerlineYAt_right (width length eavesOverhang gableOverhang cosPitch tanPitch : ℚ)
    (i : ℕ) (z : ℚ) (h : width / 2 + eavesOverhang ≠ 0) :
    centerlineYAt (mkRightRafter width length eavesOverhang gableOverhang cosPitch tanPitch i) z =
      yEave cosPitch tanPitch eavesOverhang + ((width / 2 + eavesOverhang) - z) * tanPitch := by
  have hyy : yRafterAtRidge width cosPitch tanPitch -
      yEave cosPitch tanPitch eavesOverhang =
      (width / 2 + eavesOverhang) * tanPitch := by
    simp only [yRafterAtRidge, yEave, ridgeHeight]; ring
  simp only [centerlineYAt, mkRightRafter]
  rw [show (0 : ℚ) - (width / 2 + eavesOverhang) = -(width / 2 + eavesOverhang) by ring,
    hyy, div_neg, mul_div_cancel_left₀ _ h]
  ring

/-- Ceiling division respects the bound: `s / ⌈s/M⌉ ≤ M` for positive `s`, `M`. -/
lemma rat_div_ceil_le (s M : ℚ) (hs : 0 < s) (hM : 0 < M) :
    s / ((⌈s / M⌉ : ℤ) : ℚ) ≤ M := by
  have h1 : s / M ≤ ((⌈s / M⌉ : ℤ) : ℚ) := Int.le_ceil _
  have h0 : (0 : ℚ) < ((⌈s / M⌉ : ℤ) : ℚ) := lt_of_lt_of_le (div_pos hs hM) h1
  rw [div_le_iff h0]
  rw [div_le_iff hM] at h1
  linarith

/-- Ceiling division is minimal among bay counts meeting the bound. -/
lemma rat_ceil_min (s M : ℚ) (m : ℤ) (hM : 0 < M) (hm : 0 < m)
    (h : s / (m : ℚ) ≤ M) : ⌈s / M⌉ ≤ m := by
  have hm0 : (0 : ℚ) < (m : ℚ) := by exact_mod_cast hm
  rw [div_le_iff hm0] at h
  rw [Int.ceil_le]
  rw [div_le_iff hM]
  exact_mod_cast by linarith [h]

/-- Ceiling of a positive quotient is positive. -/
lemma rat_ceil_pos (s M : ℚ) (hs : 0 < s) (hM : 0 < M) : 0 < ⌈s / M⌉ :=
  Int.ceil_pos.mpr (div_pos hs hM)

/-- Bearing identity for a left rafter at the base purlin plane `z = -width/2`. -/
lemma bearing_base_left (width length eavesOverhang gableOverhang cosPitch tanPitch : ℚ)
    (i : ℕ) (h : width / 2 + eavesOverhang ≠ 0) :
    centerlineYAt (mkLeftRafter width length eavesOverhang gableOverhang cosPitch tanPitch i)
        (-(width / 2)) - rafterYOffset cosPitch = yBasePurlinTop := by
  rw [centerlineYAt_left width length eavesOverhang gableOverhang cosPitch tanPitch i _ h]
  simp only [yEave, yRafterAtBase]
  ring

/-- Bearing identity for a right rafter at the base purlin plane `z = width/2`. -/
lemma bearing_base_right (width length eavesOverhang gableOverhang cosPitch tanPitch : ℚ)
    (i : ℕ) (h : width / 2 + eavesOverhang ≠ 0) :
    centerlineYAt (mkRightRafter width length eavesOverhang gableOverhang cosPitch tanPitch i)
        (width / 2) - rafterYOffset cosPitch = yBasePurlinTop := by
  rw [centerlineYAt_right width length eavesOverhang gableOverhang cosPitch tanPitch i _ h]
  simp only [yEave, yRafterAtBase]
  ring

/-- Bearing identity for a left rafter at the ridge purlin plane
`z = -RIDGE_SIZE/2`. -/
lemma bearing_ridge_left (width length eavesOverhang gableOverhang cosPitch tanPitch : ℚ)
    (i : ℕ) (h : width / 2 + eavesOverhang ≠ 0) :
    centerlineYAt (mkLeftRafter width length eavesOverhang gableOverhang cosPitch tanPitch i)
        (-(RIDGE_SIZE / 2)) - rafterYOffset cosPitch = yRidgePurlinTop width tanPitch := by
  rw [centerlineYAt_left width length eavesOverhang gableOverhang cosPitch tanPitch i _ h]
  simp only [yEave, yRafterAtBase, yRidgePurlinTop, ridgeHeight]
  ring

/-- Bearing identity for a right rafter at the ridge purlin plane
`z = RIDGE_SIZE/2`. -/
lemma bearing_ridge_right (width length eavesOverhang gableOverhang cosPitch tanPitch : ℚ)
    (i : ℕ) (h : width / 2 + eavesOverhang ≠ 0) :
    centerlineYAt (mkRightRafter width length eavesOverhang gableOverhang cosPitch tanPitch i)
        (RIDGE_SIZE / 2) - rafterYOffset cosPitch = yRidgePurlinTop width tanPitch := by
  rw [centerlineYAt_right width length eavesOverhang gableOverhang cosPitch tanPitch i _ h]
  simp only [yEave, yRafterAtBase, yRidgePurlinTop, ridgeHeight]
  ring

-- ── Claim theorems ────────────────────────────────────────────────────────────

/-- Strict clearance of the ridge purlin top below the top face of a left rafter
over the purlin footprint. -/
lemma ridge_below_left (width eavesOverhang cosPitch tanPitch z : ℚ)
    (hz : -(RIDGE_SIZE / 2) ≤ z) (hcos0 : 0 < cosPitch) (hcos1 : cosPitch ≤ 1)
    (htan : 0 ≤ tanPitch) :
    yRidgePurlinTop width tanPitch <
      yEave cosPitch tanPitch eavesOverhang +
        (z + (width / 2 + eavesOverhang)) * tanPitch +
        RAFTER_DEPTH / (2 * cosPitch) := by
  have key : (yEave cosPitch tanPitch eavesOverhang +
        (z + (width / 2 + eavesOverhang)) * tanPitch +
        RAFTER_DEPTH / (2 * cosPitch)) - yRidgePurlinTop width tanPitch =
      (RAFTER_DEPTH / cosPitch - BIRD_MOUTH_PLUMB_HEIGHT) +
        (z + RIDGE_SIZE / 2) * tanPitch := by
    simp only [yEave, yRafterAtBase, rafterYOffset, yRidgePurlinTop, ridgeHeight]
    ring
  have hq : RAFTER_DEPTH ≤ RAFTER_DEPTH / cosPitch := by
    rw [le_div_iff₀ hcos0]
    have := mul_le_mul_of_nonneg_left hcos1
      (show (0 : ℚ) ≤ RAFTER_DEPTH by norm_num [RAFTER_DEPTH])
    simpa using this
  have hpd : BIRD_MOUTH_PLUMB_HEIGHT < RAFTER_DEPTH := by
    norm_num [BIRD_MOUTH_PLUMB_HEIGHT, RAFTER_DEPTH]
  have h1 : 0 ≤ (z + RIDGE_SIZE / 2) * tanPitch :=
    mul_nonneg (by linarith) htan
  linarith [key]

/-- Strict clearance of the ridge purlin top below the top face of a right rafter
over the purlin footprint. -/
lemma ridge_below_right (width eavesOverhang cosPitch tanPitch z : ℚ)
    (hz : z ≤ RIDGE_SIZE / 2) (hcos0 : 0 < cosPitch) (hcos1 : cosPitch ≤ 1)
    (htan : 0 ≤ tanPitch) :
    yRidgePurlinTop width tanPitch <
      yEave cosPitch tanPitch eavesOverhang +
        ((width / 2 + eavesOverhang) - z) * tanPitch +
        RAFTER_DEPTH / (2 * cosPitch) := by
  have key : (yEave cosPitch tanPitch eavesOverhang +
        ((width / 2 + eavesOverhang) - z) * tanPitch +
        RAFTER_DEPTH / (2 * cosPitch)) - yRidgePurlinTop width tanPitch =
      (RAFTER_DEPTH / cosPitch - BIRD_MOUTH_PLUMB_HEIGHT) +
        (RIDGE_SIZE / 2 - z) * tanPitch := by
    simp only [yEave, yRafterAtBase, rafterYOffset, yRidgePurlinTop, ridgeHeight]
    ring
  have hq : RAFTER_DEPTH ≤ RAFTER_DEPTH / cosPitch := by
    rw [le_div_iff₀ hcos0]
    have := mul_le_mul_of_nonneg_left hcos1
      (show (0 : ℚ) ≤ RAFTER_DEPTH by norm_num [RAFTER_DEPTH])
    simpa using this
  have hpd : BIRD_MOUTH_PLUMB_HEIGHT < RAFTER_DEPTH := by
    norm_num [BIRD_MOUTH_PLUMB_HEIGHT, RAFTER_DEPTH]
  have h1 : 0 ≤ (RIDGE_SIZE / 2 - z) * tanPitch :=
    mul_nonneg (by linarith) htan
  linarith [key]

/-- C2: for every valid input, the top surface height of the ridge purlin equals the
base-purlin top height plus `ridgeHeight(width − RIDGE_SIZE, pitch)` (bird-line
alignment), and this ridge purlin top lies strictly below the top surface of
every rafter everywhere over the ridge purlin footprint
(`-RIDGE_SIZE/2 ≤ z ≤ RIDGE_SIZE/2`); the rafter top face height over `z` is
the centerline height plus `RAFTER_DEPTH / (2·cosPitch)`. -/
theorem c2_ridge_purlin_top (p : InputParams) (cosPitch tanPitch cos45 : ℚ)
    (hw : 0 < p.width) (_hl : 0 < p.length) (hE : 0 ≤ p.eavesOverhang)
    (_hG : 0 ≤ p.gableOverhang) (hcos0 : 0 < cosPitch) (hcos1 : cosPitch ≤ 1)
    (htan : 0 < tanPitch) :
    (∀ bp ∈ (buildStructure p cosPitch tanPitch cos45).basePurlins,
      (buildStructure p cosPitch tanPitch cos45).ridgePurlin.start.y + RIDGE_SIZE / 2 =
        bp.start.y + bp.height / 2 + ridgeHeight (p.width - RIDGE_SIZE) tanPitch) ∧
    ∀ r ∈ (buildStructure p cosPitch tanPitch cos45).rafters,
      ∀ z : ℚ, -(RIDGE_SIZE / 2) ≤ z → z ≤ RIDGE_SIZE / 2 →
        (buildStructure p cosPitch tanPitch cos45).ridgePurlin.start.y + RIDGE_SIZE / 2 <
          centerlineYAt r z + RAFTER_DEPTH / (2 * cosPitch) := by
  have hA : (0 : ℚ) < p.width / 2 + p.eavesOverhang := by linarith
  have hAne : p.width / 2 + p.eavesOverhang ≠ 0 := ne_of_gt hA
  have hrp : (buildStructure p cosPitch tanPitch cos45).ridgePurlin.start.y +
      RIDGE_SIZE / 2 = yRidgePurlinTop p.width tanPitch := by
    simp only [buildStructure, makePurlin, yRidgePurlinCenter]
    ring
  constructor
  · intro bp hbp
    simp only [buildStructure, List.mem_cons, List.not_mem_nil, or_false] at hbp
    rw [hrp]
    rcases hbp with rfl | rfl
    · simp only [makePurlin, yPurlinCenter, yBasePurlinTop, yRidgePurlinTop]; ring
    · simp only [makePurlin, yPurlinCenter, yBasePurlinTop, yRidgePurlinTop]; ring
  · intro r hr z hz1 hz2
    rw [hrp]
    simp only [buildStructure, leftRafters, rightRafters, List.mem_append,
      List.mem_map, List.mem_range] at hr
    rcases hr with ⟨i, _, rfl⟩ | ⟨i, _, rfl⟩
    · rw [centerlineYAt_left p.width p.length p.eavesOverhang p.gableOverhang
        cosPitch tanPitch i z hAne]
      exact ridge_below_left p.width p.eavesOverhang cosPitch tanPitch z hz1
        hcos0 hcos1 htan.le
    · rw [centerlineYAt_right p.width p.length p.eavesOverhang p.gableOverhang
        cosPitch tanPitch i z hAne]
      exact ridge_below_right p.width p.eavesOverhang cosPitch tanPitch z hz2
        hcos0 hcos1 htan.le

/-- Witness for C2 at width 3, length 4, cos pitch 4/5, tan pitch 3/4. -/
theorem c2_witness :
    (∀ bp ∈ (buildStructure ⟨3, 4, 1/2, 3/10⟩ (4/5) (3/4) (7/10)).basePurlins,
      (buildStructure ⟨3, 4, 1/2, 3/10⟩ (4/5) (3/4) (7/10)).ridgePurlin.start.y +
          RIDGE_SIZE / 2 =
        bp.start.y + bp.height / 2 + ridgeHeight ((3 : ℚ) - RIDGE_SIZE) (3/4)) ∧
    ∀ r ∈ (buildStructure ⟨3, 4, 1/2, 3/10⟩ (4/5) (3/4) (7/10)).rafters,
      ∀ z : ℚ, -(RIDGE_SIZE / 2) ≤ z → z ≤ RIDGE_SIZE / 2 →
        (buildStructure ⟨3, 4, 1/2, 3/10⟩ (4/5) (3/4) (7/10)).ridgePurlin.start.y +
            RIDGE_SIZE / 2 <
          centerlineYAt r z + RAFTER_DEPTH / (2 * (4/5)) :=
  c2_ridge_purlin_top ⟨3, 4, 1/2, 3/10⟩ (4/5) (3/4) (7/10) (by norm_num)
    (by norm_num) (by norm_num) (by norm_num) (by norm_num) (by norm_num) (by norm_num)

/-- C4: for every span length with positive inner span, the pillar layout uses
`ceil(innerSpan / MAX_UNSUPPORTED_SPAN) + 1` evenly spaced pillar rows with
`innerSpan = length − 2·PILLAR_SIZE`, the total pillar count returned by
`pillarCount` is rows × 2, and the per-bay span reconstructed as
`innerSpan / (rows − 1)` never exceeds `MAX_UNSUPPORTED_SPAN`.  Even spacing is
expressed by every pair of consecutive row positions differing by the same
constant. -/
theorem c4_pillar_rows (l : ℚ) (h : 2 * PILLAR_SIZE < l) :
    pillarCount l = 2 * (⌈(l - 2 * PILLAR_SIZE) / MAX_UNSUPPORTED_SPAN⌉ + 1) ∧
    2 ≤ pillarRowCount l ∧
    (l - 2 * PILLAR_SIZE) / ((pillarRowCount l : ℚ) - 1) ≤ MAX_UNSUPPORTED_SPAN ∧
    (buildPillarXPositions l (pillarCount l)).length = (pillarRowCount l).toNat ∧
    buildPillarXPositions l (pillarCount l) =
      (List.range (pillarRowCount l).toNat).map (fun (i : ℕ) =>
        -(l / 2 - PILLAR_SIZE / 2) +
          (i : ℚ) * (2 * (l / 2 - PILLAR_SIZE / 2)) / ((pillarRowCount l : ℚ) - 1)) ∧
    ∀ i : ℕ,
      (-(l / 2 - PILLAR_SIZE / 2) +
        ((i : ℚ) + 1) * (2 * (l / 2 - PILLAR_SIZE / 2)) / ((pillarRowCount l : ℚ) - 1)) -
      (-(l / 2 - PILLAR_SIZE / 2) +
        (i : ℚ) * (2 * (l / 2 - PILLAR_SIZE / 2)) / ((pillarRowCount l : ℚ) - 1)) =
      2 * (l / 2 - PILLAR_SIZE / 2) / ((pillarRowCount l : ℚ) - 1) := by
  have hs : (0 : ℚ) < l - 2 * PILLAR_SIZE := by linarith
  have hM : (0 : ℚ) < MAX_UNSUPPORTED_SPAN := by norm_num [MAX_UNSUPPORTED_SPAN]
  have hceil : 0 < ⌈(l - 2 * PILLAR_SIZE) / MAX_UNSUPPORTED_SPAN⌉ :=
    rat_ceil_pos _ _ hs hM
  have hrows2 : 2 ≤ pillarRowCount l := by
    simp only [pillarRowCount]; omega
  have hsub : ((pillarRowCount l : ℤ) : ℚ) - 1 =
      ((⌈(l - 2 * PILLAR_SIZE) / MAX_UNSUPPORTED_SPAN⌉ : ℤ) : ℚ) := by
    simp only [pillarRowCount]; push_cast; ring
  have hdiv2 : pillarCount l / 2 = pillarRowCount l :=
    Int.mul_ediv_cancel_left _ two_ne_zero
  have hcast : (((pillarRowCount l).toNat : ℕ) : ℚ) = ((pillarRowCount l : ℤ) : ℚ) := by
    exact_mod_cast Int.toNat_of_nonneg (by omega)
  have hlen : (buildPillarXPositions l (pillarCount l)).length =
      (pillarRowCount l).toNat := by
    unfold buildPillarXPositions
    rw [List.length_map, List.length_range, hdiv2]
  refine ⟨rfl, hrows2, ?_, hlen, ?_, ?_⟩
  · rw [hsub]
    exact rat_div_ceil_le _ _ hs hM
  · unfold buildPillarXPositions
    rw [hdiv2]
    apply List.map_congr_left
    intro i _
    rw [hcast]
  · intro i
    ring

/-- Witness for C4 at length 4 m: 3 rows, 6 pillars. -/
theorem c4_witness :
    pillarCount 4 = 2 * (⌈((4 : ℚ) - 2 * PILLAR_SIZE) / MAX_UNSUPPORTED_SPAN⌉ + 1) ∧
    2 ≤ pillarRowCount 4 ∧
    ((4 : ℚ) - 2 * PILLAR_SIZE) / ((pillarRowCount 4 : ℚ) - 1) ≤ MAX_UNSUPPORTED_SPAN ∧
    (buildPillarXPositions 4 (pillarCount 4)).length = (pillarRowCount 4).toNat ∧
    buildPillarXPositions 4 (pillarCount 4) =
      (List.range (pillarRowCount 4).toNat).map (fun (i : ℕ) =>
        -((4 : ℚ) / 2 - PILLAR_SIZE / 2) +
          (i : ℚ) * (2 * ((4 : ℚ) / 2 - PILLAR_SIZE / 2)) /
            ((pillarRowCount 4 : ℚ) - 1)) ∧
    ∀ i : ℕ,
      (-((4 : ℚ) / 2 - PILLAR_SIZE / 2) +
        ((i : ℚ) + 1) * (2 * ((4 : ℚ) / 2 - PILLAR_SIZE / 2)) /
          ((pillarRowCount 4 : ℚ) - 1)) -
      (-((4 : ℚ) / 2 - PILLAR_SIZE / 2) +
        (i : ℚ) * (2 * ((4 : ℚ) / 2 - PILLAR_SIZE / 2)) /
          ((pillarRowCount 4 : ℚ) - 1)) =
      2 * ((4 : ℚ) / 2 - PILLAR_SIZE / 2) / ((pillarRowCount 4 : ℚ) - 1) :=
  c4_pillar_rows 4 (by norm_num [PILLAR_SIZE])

/-- C5 (amended): for every valid input whose roof run exceeds one rafter
width, `buildStructure` divides the center-to-center rafter run into the
minimum number of equal bays whose spacing does not exceed the fixed 0.9 m
maximum: the bay count is positive, the bays exactly cover the run,
`rafterSpacing ≤ 0.9`, the bay count is minimal among positive counts meeting
the bound, the rafter count per slope is bays + 1, and consecutive rafter X
positions differ by exactly the `rafterSpacing` of the model.  The original claim
quantified over all valid inputs; it fails when
`length + 2·gableOverhang ≤ RAFTER_WIDTH` (see the counterexample), where the
source computes zero bays and divides by zero. -/
theorem c5_rafter_bays (p : InputParams) (cosPitch tanPitch cos45 : ℚ)
    (_hw : 0 < p.width) (_hl : 0 < p.length) (_hE : 0 ≤ p.eavesOverhang)
    (_hG : 0 ≤ p.gableOverhang) (_hcos0 : 0 < cosPitch) (_hcos1 : cosPitch ≤ 1)
    (_htan : 0 < tanPitch)
    (hrun : RAFTER_WIDTH < p.length + 2 * p.gableOverhang) :
    0 < nBays p.length p.gableOverhang ∧
    (buildStructure p cosPitch tanPitch cos45).rafterSpacing =
      rafterSpanCC p.length p.gableOverhang /
        ((nBays p.length p.gableOverhang : ℤ) : ℚ) ∧
    ((nBays p.length p.gableOverhang : ℤ) : ℚ) *
        (buildStructure p cosPitch tanPitch cos45).rafterSpacing =
      rafterSpanCC p.length p.gableOverhang ∧
    (buildStructure p cosPitch tanPitch cos45).rafterSpacing ≤ MAX_RAFTER_SPACING ∧
    (∀ m : ℤ, 0 < m →
      rafterSpanCC p.length p.gableOverhang / (m : ℚ) ≤ MAX_RAFTER_SPACING →
      nBays p.length p.gableOverhang ≤ m) ∧
    (buildStructure p cosPitch tanPitch cos45).rafters.length =
      2 * ((nBays p.length p.gableOverhang).toNat + 1) ∧
    (buildStructure p cosPitch tanPitch cos45).rafters.map (fun r => r.eaveEnd.x) =
      ((List.range ((nBays p.length p.gableOverhang).toNat + 1)).map fun (i : ℕ) =>
        xFirst p.length p.gableOverhang +
          (i : ℚ) * (buildStructure p cosPitch tanPitch cos45).rafterSpacing) ++
      ((List.range ((nBays p.length p.gableOverhang).toNat + 1)).map fun (i : ℕ) =>
        xFirst p.length p.gableOverhang +
          (i : ℚ) * (buildStructure p cosPitch tanPitch cos45).rafterSpacing) ∧
    ∀ i : ℕ,
      (xFirst p.length p.gableOverhang +
        ((i : ℚ) + 1) * (buildStructure p cosPitch tanPitch cos45).rafterSpacing) -
      (xFirst p.length p.gableOverhang +
        (i : ℚ) * (buildStructure p cosPitch tanPitch cos45).rafterSpacing) =
      (buildStructure p cosPitch tanPitch cos45).rafterSpacing := by
  have hspan : (0 : ℚ) < rafterSpanCC p.length p.gableOverhang := by
    simp only [rafterSpanCC, purlinLength]
    linarith
  have hMAX : (0 : ℚ) < MAX_RAFTER_SPACING := by norm_num [MAX_RAFTER_SPACING]
  have hn : 0 < nBays p.length p.gableOverhang := rat_ceil_pos _ _ hspan hMAX
  have hnq : ((nBays p.length p.gableOverhang : ℤ) : ℚ) ≠ 0 := by
    exact_mod_cast ne_of_gt hn
  have hsp : (buildStructure p cosPitch tanPitch cos45).rafterSpacing =
      rafterSpanCC p.length p.gableOverhang /
        ((nBays p.length p.gableOverhang : ℤ) : ℚ) := rfl
  have htoNat : (nRafters p.length p.gableOverhang).toNat =
      (nBays p.length p.gableOverhang).toNat + 1 := by
    simp only [nRafters]; omega
  refine ⟨hn, hsp, ?_, ?_, ?_, ?_, ?_, ?_⟩
  · rw [hsp, mul_comm, div_mul_cancel₀ _ hnq]
  · rw [hsp]
    exact rat_div_ceil_le _ _ hspan hMAX
  · intro m hm hle
    exact rat_ceil_min _ _ m hMAX hm hle
  · simp only [buildStructure, leftRafters, rightRafters, List.length_append,
      List.length_map, List.length_range, htoNat]
    ring
  · simp only [buildStructure, leftRafters, rightRafters, List.map_append,
      List.map_map, htoNat]
    congr 1
  · intro i
    ring

/-- C5 counterexample: at the valid input width 3, length 1/20, eaves overhang
1/2, gable overhang 0 (run shorter than one rafter width), the center-to-center
span is negative, the bay count is zero, only one rafter per slope is emitted,
and the bays do not cover the run (in JS the spacing is a division by negative
zero, Infinity). -/
theorem c5_counterexample :
    rafterSpanCC (1/20) 0 = -(1/40) ∧
    nBays (1/20) 0 = 0 ∧
    (buildStructure ⟨3, 1/20, 1/2, 0⟩ (4/5) (3/4) (7/10)).rafters.length = 2 ∧
    ((nBays (1/20) 0 : ℤ) : ℚ) *
        (buildStructure ⟨3, 1/20, 1/2, 0⟩ (4/5) (3/4) (7/10)).rafterSpacing ≠
      rafterSpanCC (1/20) 0 := by
  have h1 : rafterSpanCC (1/20) 0 = -(1/40) := by
    norm_num [rafterSpanCC, purlinLength, RAFTER_WIDTH]
  have h2 : nBays (1/20) 0 = 0 := by
    rw [nBays, h1, Int.ceil_eq_iff]
    norm_num [MAX_RAFTER_SPACING]
  refine ⟨h1, h2, ?_, ?_⟩
  · simp only [buildStructure, leftRafters, rightRafters, List.length_append,
      List.length_map, List.length_range, nRafters, h2]
    rfl
  · rw [h1, h2]
    norm_num

/-- Witness for C5 (amended) at width 3, length 4, eaves overhang 1/2, gable
overhang 3/10, cos pitch 4/5, tan pitch 3/4. -/
theorem c5_witness :
    0 < nBays 4 (3/10) ∧
    (buildStructure ⟨3, 4, 1/2, 3/10⟩ (4/5) (3/4) (7/10)).rafterSpacing ≤
      MAX_RAFTER_SPACING ∧
    (buildStructure ⟨3, 4, 1/2, 3/10⟩ (4/5) (3/4) (7/10)).rafters.length =
      2 * ((nBays 4 (3/10)).toNat + 1) := by
  obtain ⟨a, _, _, b, _, c, _, _⟩ :=
    c5_rafter_bays ⟨3, 4, 1/2, 3/10⟩ (4/5) (3/4) (7/10) (by norm_num) (by norm_num)
      (by norm_num) (by norm_num) (by norm_num) (by norm_num) (by norm_num)
      (by norm_num [RAFTER_WIDTH])
  exact ⟨a, b, c⟩

/-- C3 (amended): `buildStructure` performs no input validation — for every
input, valid or invalid, it computes the geometry and returns a complete model
(no error is ever raised and no truncated result is produced).  The
original claim said invalid inputs fail fast with a validation error before any
geometry is computed; the source has no validation at all, and at pitch 0 the
returned model even carries a division by zero (Infinity in JS) in the
base-birdmouth seat depth (see the counterexample). -/
theorem c3_no_validation (p : InputParams) (cosPitch tanPitch cos45 : ℚ) :
    (buildStructure p cosPitch tanPitch cos45).params = p ∧
    (buildStructure p cosPitch tanPitch cos45).basePurlins.length = 2 ∧
    (buildStructure p cosPitch tanPitch cos45).rafters.length =
      2 * (nRafters p.length p.gableOverhang).toNat ∧
    (buildStructure p cosPitch tanPitch cos45).tieBeams.length =
      (buildPillarXPositions p.length (pillarCount p.length)).length := by
  refine ⟨rfl, rfl, ?_, ?_⟩
  · simp only [buildStructure, leftRafters, rightRafters, List.length_append,
      List.length_map, List.length_range]
    ring
  · simp only [buildStructure, List.length_map]

/-- C3 counterexample: at the invalid input pitch = 0 (so cos pitch = 1 and
tan pitch = 0) with width 3, length 4, eaves overhang 1/2, gable overhang 3/10,
`buildStructure` raises nothing and returns a fully computed model — 14
rafters, 2 base purlins, ridge height 0 — whose base-birdmouth seat depth is
the division `BIRD_MOUTH_PLUMB_HEIGHT / 0` (which is Infinity in the
JS arithmetic), contradicting fail-fast validation. -/
theorem c3_counterexample :
    (buildStructure ⟨3, 4, 1/2, 3/10⟩ 1 0 (7/10)).rafters.length = 14 ∧
    (buildStructure ⟨3, 4, 1/2, 3/10⟩ 1 0 (7/10)).basePurlins.length = 2 ∧
    (buildStructure ⟨3, 4, 1/2, 3/10⟩ 1 0 (7/10)).ridgeHeight = 0 ∧
    ∀ r ∈ (buildStructure ⟨3, 4, 1/2, 3/10⟩ 1 0 (7/10)).rafters,
      r.birdMouthBase.seatDepth = BIRD_MOUTH_PLUMB_HEIGHT / 0 := by
  have h1 : rafterSpanCC 4 (3/10) = 181/40 := by
    norm_num [rafterSpanCC, purlinLength, RAFTER_WIDTH]
  have h2 : nBays 4 (3/10) = 6 := by
    rw [nBays, h1, Int.ceil_eq_iff]
    norm_num [MAX_RAFTER_SPACING]
  refine ⟨?_, rfl, ?_, ?_⟩
  · simp only [buildStructure, leftRafters, rightRafters, List.length_append,
      List.length_map, List.length_range, nRafters, h2]
    rfl
  · simp only [buildStructure, ridgeHeight]
    norm_num
  · intro r hr
    simp only [buildStructure, leftRafters, rightRafters, List.mem_append,
      List.mem_map, List.mem_range] at hr
    rcases hr with ⟨i, _, rfl⟩ | ⟨i, _, rfl⟩ <;> rfl

/-- C6: for every pitch in (0°, 90°) — i.e. every positive tangent value —
`birdMouthAtBasePurlin` has the fixed plumb height 0.03 (independent of pitch)
and seat depth `plumbHeight / tan(pitch)`, which is strictly decreasing as the
pitch steepens (tangent grows); `birdMouthAtRidgePurlin` has the fixed seat
depth 0.05 and the same fixed plumb height 0.03, both independent of pitch. -/
theorem c6_birdmouth_dimensions (t : ℚ) (ht : 0 < t) :
    (birdMouthAtBasePurlin t).plumbHeight = 0.03 ∧
    (∀ u : ℚ, (birdMouthAtBasePurlin u).plumbHeight = 0.03) ∧
    (birdMouthAtBasePurlin t).seatDepth = (birdMouthAtBasePurlin t).plumbHeight / t ∧
    (∀ u : ℚ, t < u →
      (birdMouthAtBasePurlin u).seatDepth < (birdMouthAtBasePurlin t).seatDepth) ∧
    (birdMouthAtRidgePurlin t).seatDepth = 0.05 ∧
    (birdMouthAtRidgePurlin t).plumbHeight = 0.03 ∧
    (∀ u : ℚ, birdMouthAtRidgePurlin u = birdMouthAtRidgePurlin t) := by
  refine ⟨rfl, fun u => rfl, rfl, ?_, rfl, rfl, fun u => rfl⟩
  intro u hu
  simp only [birdMouthAtBasePurlin, BIRD_MOUTH_PLUMB_HEIGHT]
  have h3 : (0 : ℚ) < 0.03 := by norm_num
  exact div_lt_div_of_pos_left h3 ht hu

/-- C1: for every valid input, the rafter centerline vertical offset used by
`buildStructure` equals `RAFTER_DEPTH / (2·cosPitch) − BIRD_MOUTH_PLUMB_HEIGHT`,
and for every rafter of the returned model the centerline height at the
base-purlin bearing plane (the outer face of the purlin, `z = ±width/2`, where the
plumb cut sits) minus this offset equals the base-purlin top height, with the
analogous identity at the ridge purlin plane `z = ±RIDGE_SIZE/2`.  The
identities hold exactly in ℚ, hence in particular within the claimed 1e-6
floating-point tolerance. -/
theorem c1_bearing_invariant (p : InputParams) (cosPitch tanPitch cos45 : ℚ)
    (hw : 0 < p.width) (_hl : 0 < p.length) (hE : 0 ≤ p.eavesOverhang)
    (_hG : 0 ≤ p.gableOverhang) (_hcos0 : 0 < cosPitch) (_hcos1 : cosPitch ≤ 1)
    (_htan : 0 < tanPitch) :
    rafterYOffset cosPitch = RAFTER_DEPTH / (2 * cosPitch) - BIRD_MOUTH_PLUMB_HEIGHT ∧
    ∀ r ∈ (buildStructure p cosPitch tanPitch cos45).rafters,
      (∀ bp ∈ (buildStructure p cosPitch tanPitch cos45).basePurlins,
        centerlineYAt r (sideSign r * (p.width / 2)) - rafterYOffset cosPitch =
          bp.start.y + bp.height / 2) ∧
      centerlineYAt r (sideSign r * (RIDGE_SIZE / 2)) - rafterYOffset cosPitch =
        (buildStructure p cosPitch tanPitch cos45).ridgePurlin.start.y + RIDGE_SIZE / 2 := by
  have hA : (0 : ℚ) < p.width / 2 + p.eavesOverhang := by linarith
  have hAne : p.width / 2 + p.eavesOverhang ≠ 0 := ne_of_gt hA
  constructor
  · simp only [rafterYOffset]; ring
  · intro r hr
    have hbp : ∀ bp ∈ (buildStructure p cosPitch tanPitch cos45).basePurlins,
        bp.start.y + bp.height / 2 = yBasePurlinTop := by
      intro bp hbp
      simp only [buildStructure, List.mem_cons, List.not_mem_nil, or_false] at hbp
      rcases hbp with rfl | rfl
      · simp only [makePurlin, yPurlinCenter, yBasePurlinTop]; ring
      · simp only [makePurlin, yPurlinCenter, yBasePurlinTop]; ring
    have hrp : (buildStructure p cosPitch tanPitch cos45).ridgePurlin.start.y +
        RIDGE_SIZE / 2 = yRidgePurlinTop p.width tanPitch := by
      simp only [buildStructure, makePurlin, yRidgePurlinCenter]
      ring
    simp only [buildStructure, leftRafters, rightRafters, List.mem_append,
      List.mem_map, List.mem_range] at hr
    rcases hr with ⟨i, _, rfl⟩ | ⟨i, _, rfl⟩
    · have hside : sideSign
          (mkLeftRafter p.width p.length p.eavesOverhang p.gableOverhang cosPitch tanPitch i) =
          -1 := by
        simp only [sideSign, mkLeftRafter]
        rw [if_pos]
        linarith
      refine ⟨fun bp hb => ?_, ?_⟩
      · rw [hbp bp hb, hside,
          show (-1 : ℚ) * (p.width / 2) = -(p.width / 2) by ring]
        exact bearing_base_left p.width p.length p.eavesOverhang p.gableOverhang
          cosPitch tanPitch i hAne
      · rw [hrp, hside, show (-1 : ℚ) * (RIDGE_SIZE / 2) = -(RIDGE_SIZE / 2) by ring]
        exact bearing_ridge_left p.width p.length p.eavesOverhang p.gableOverhang
          cosPitch tanPitch i hAne
    · have hside : sideSign
          (mkRightRafter p.width p.length p.eavesOverhang p.gableOverhang cosPitch tanPitch i) =
          1 := by
        simp only [sideSign, mkRightRafter]
        rw [if_neg]
        linarith
      refine ⟨fun bp hb => ?_, ?_⟩
      · rw [hbp bp hb, hside, one_mul]
        exact bearing_base_right p.width p.length p.eavesOverhang p.gableOverhang
          cosPitch tanPitch i hAne
      · rw [hrp, hside, one_mul]
        exact bearing_ridge_right p.width p.length p.eavesOverhang p.gableOverhang
          cosPitch tanPitch i hAne

/-- Witness for C1 at width 3, length 4, pitch with cos = 4/5 and tan = 3/4,
eaves overhang 1/2, gable overhang 3/10. -/
theorem c1_witness :
    rafterYOffset (4/5) = RAFTER_DEPTH / (2 * (4/5)) - BIRD_MOUTH_PLUMB_HEIGHT ∧
    ∀ r ∈ (buildStructure ⟨3, 4, 1/2, 3/10⟩ (4/5) (3/4) (7/10)).rafters,
      (∀ bp ∈ (buildStructure ⟨3, 4, 1/2, 3/10⟩ (4/5) (3/4) (7/10)).basePurlins,
        centerlineYAt r (sideSign r * ((3 : ℚ) / 2)) - rafterYOffset (4/5) =
          bp.start.y + bp.height / 2) ∧
      centerlineYAt r (sideSign r * (RIDGE_SIZE / 2)) - rafterYOffset (4/5) =
        (buildStructure ⟨3, 4, 1/2, 3/10⟩ (4/5) (3/4) (7/10)).ridgePurlin.start.y +
          RIDGE_SIZE / 2 :=
  c1_bearing_invariant ⟨3, 4, 1/2, 3/10⟩ (4/5) (3/4) (7/10) (by norm_num)
    (by norm_num) (by norm_num) (by norm_num) (by norm_num) (by norm_num) (by norm_num)

/-- Sum of the gable-adjusted row weights over an initial range: one for the
first index, two for every other index. -/
lemma sum_gable_weights (k : ℕ) :
    ((List.range (k + 1)).map (fun i => if i = 0 then (1 : ℕ) else 2)).sum =
      2 * k + 1 := by
  induction k with
  | zero => rfl
  | succ m ih =>
    rw [show m + 1 + 1 = (m + 1) + 1 from rfl, List.range_succ, List.map_append,
      List.sum_append, ih]
    simp
    omega

/-- Sum of per-rafter ridge-tie counts: one tie at each gable rafter, two at
each interior rafter. -/
lemma sum_tie_counts (m : ℕ) :
    ((List.range (m + 2)).map
      (fun i => if i = 0 then (1 : ℕ) else if i = m + 1 then 1 else 2)).sum =
      2 * m + 2 := by
  rw [show m + 2 = (m + 1) + 1 from rfl, List.range_succ, List.map_append,
    List.sum_append]
  have h1 : (List.range (m + 1)).map
      (fun i => if i = 0 then (1 : ℕ) else if i = m + 1 then 1 else 2) =
      (List.range (m + 1)).map (fun i => if i = 0 then (1 : ℕ) else 2) := by
    apply List.map_congr_left
    intro i hi
    rw [List.mem_range] at hi
    have hne : i ≠ m + 1 := by omega
    by_cases h0 : i = 0 <;> simp [h0, hne]
  rw [h1, sum_gable_weights m]
  simp

/-- Length of the ridge-tie list: `2 · nRafters − 2` once there are at least
two rafters per slope. -/
lemma ridgeTies_length (width length gableOverhang cosPitch tanPitch : ℚ)
    (hn : 2 ≤ (nRafters length gableOverhang).toNat) :
    (ridgeTies width length gableOverhang cosPitch tanPitch).length =
      2 * (nRafters length gableOverhang).toNat - 2 := by
  obtain ⟨m, hm⟩ : ∃ m, (nRafters length gableOverhang).toNat = m + 2 :=
    ⟨(nRafters length gableOverhang).toNat - 2, by omega⟩
  unfold ridgeTies
  rw [hm, List.length_flatMap]
  have hfun : (List.length ∘ fun i : ℕ =>
      let xRafter := rafterXPos length gableOverhang i
      if i = 0 then
        [mkRidgeTie width cosPitch tanPitch (xRafter + tieXOffset)]
      else if i = m + 2 - 1 then
        [mkRidgeTie width cosPitch tanPitch (xRafter - tieXOffset)]
      else
        [mkRidgeTie width cosPitch tanPitch (xRafter - tieXOffset),
         mkRidgeTie width cosPitch tanPitch (xRafter + tieXOffset)]) =
      fun i : ℕ => if i = 0 then (1 : ℕ) else if i = m + 1 then 1 else 2 := by
    funext i
    by_cases h0 : i = 0
    · subst h0; simp
    · by_cases h1 : i = m + 1
      · subst h1
        simp [show ¬(m + 1 = 0) from by omega, show m + 2 - 1 = m + 1 from by omega]
      · simp [h0, h1, show m + 2 - 1 = m + 1 from by omega]
  rw [hfun, sum_tie_counts m]
  omega

/-- C7: in every model built by `buildStructure` (on the domain where the run
holds at least two rafters per slope), the trapezoidal cross-section of every
ridge tie satisfies `zHalfBottom = zHalfTop + RIDGE_TIE_DEPTH / tanPitch`
(sides flush with the sloped top face of the rafter, Z re-derivable from Y via the
tangent of the slope); the tie count is `2·raftersPerSlope − 2`, every interior
rafter is straddled by a pair of ties at X offsets
`±(RAFTER_WIDTH/2 + RIDGE_TIE_WIDTH/2)` (= `tieXOffset`), and each gable-end
rafter gets a single tie on its inward side. -/
theorem c7_ridge_ties (p : InputParams) (cosPitch tanPitch cos45 : ℚ)
    (_hw : 0 < p.width) (_hl : 0 < p.length) (_hE : 0 ≤ p.eavesOverhang)
    (_hG : 0 ≤ p.gableOverhang) (_hcos0 : 0 < cosPitch) (_hcos1 : cosPitch ≤ 1)
    (_htan : 0 < tanPitch)
    (hrun : RAFTER_WIDTH < p.length + 2 * p.gableOverhang) :
    (∀ t ∈ (buildStructure p cosPitch tanPitch cos45).ridgeTies,
      t.zHalfBottom = t.zHalfTop + RIDGE_TIE_DEPTH / tanPitch) ∧
    (buildStructure p cosPitch tanPitch cos45).ridgeTies.length =
      2 * (nRafters p.length p.gableOverhang).toNat - 2 ∧
    (∀ i : ℕ, 0 < i → i < (nRafters p.length p.gableOverhang).toNat - 1 →
      mkRidgeTie p.width cosPitch tanPitch
          (rafterXPos p.length p.gableOverhang i - tieXOffset) ∈
        (buildStructure p cosPitch tanPitch cos45).ridgeTies ∧
      mkRidgeTie p.width cosPitch tanPitch
          (rafterXPos p.length p.gableOverhang i + tieXOffset) ∈
        (buildStructure p cosPitch tanPitch cos45).ridgeTies) ∧
    mkRidgeTie p.width cosPitch tanPitch
        (rafterXPos p.length p.gableOverhang 0 + tieXOffset) ∈
      (buildStructure p cosPitch tanPitch cos45).ridgeTies ∧
    mkRidgeTie p.width cosPitch tanPitch
        (rafterXPos p.length p.gableOverhang
          ((nRafters p.length p.gableOverhang).toNat - 1) - tieXOffset) ∈
      (buildStructure p cosPitch tanPitch cos45).ridgeTies := by
  have hspan : (0 : ℚ) < rafterSpanCC p.length p.gableOverhang := by
    simp only [rafterSpanCC, purlinLength]
    linarith
  have hb : 0 < nBays p.length p.gableOverhang :=
    rat_ceil_pos _ _ hspan (by norm_num [MAX_RAFTER_SPACING])
  have hn2 : 2 ≤ (nRafters p.length p.gableOverhang).toNat := by
    simp only [nRafters]; omega
  have hproj : (buildStructure p cosPitch tanPitch cos45).ridgeTies =
      ridgeTies p.width p.length p.gableOverhang cosPitch tanPitch := rfl
  refine ⟨?_, ?_, ?_, ?_, ?_⟩
  · intro t ht
    rw [hproj] at ht
    unfold ridgeTies at ht
    rw [List.mem_flatMap] at ht
    obtain ⟨i, _, hti⟩ := ht
    have hzb : ∀ x : ℚ, (mkRidgeTie p.width cosPitch tanPitch x).zHalfBottom =
        (mkRidgeTie p.width cosPitch tanPitch x).zHalfTop +
          RIDGE_TIE_DEPTH / tanPitch := by
      intro x
      simp [mkRidgeTie, zHalfBottom]
    split_ifs at hti <;> simp only [List.mem_cons, List.mem_singleton,
      List.not_mem_nil, or_false] at hti
    · subst hti; exact hzb _
    · subst hti; exact hzb _
    · rcases hti with rfl | rfl
      · exact hzb _
      · exact hzb _
  · rw [hproj]
    exact ridgeTies_length p.width p.length p.gableOverhang cosPitch tanPitch hn2
  · intro i h0 h1
    constructor <;> {
      rw [hproj]
      unfold ridgeTies
      rw [List.mem_flatMap]
      refine ⟨i, List.mem_range.mpr (by omega), ?_⟩
      rw [if_neg (by omega), if_neg (by omega)]
      simp
    }
  · rw [hproj]
    unfold ridgeTies
    rw [List.mem_flatMap]
    exact ⟨0, List.mem_range.mpr (by omega), by simp⟩
  · rw [hproj]
    unfold ridgeTies
    rw [List.mem_flatMap]
    refine ⟨(nRafters p.length p.gableOverhang).toNat - 1,
      List.mem_range.mpr (by omega), ?_⟩
    rw [if_neg (by omega), if_pos rfl]
    simp

/-- Witness for C7 at width 3, length 4, eaves overhang 1/2, gable overhang
3/10, cos pitch 4/5, tan pitch 3/4. -/
theorem c7_witness :
    (∀ t ∈ (buildStructure ⟨3, 4, 1/2, 3/10⟩ (4/5) (3/4) (7/10)).ridgeTies,
      t.zHalfBottom = t.zHalfTop + RIDGE_TIE_DEPTH / (3/4)) ∧
    (buildStructure ⟨3, 4, 1/2, 3/10⟩ (4/5) (3/4) (7/10)).ridgeTies.length =
      2 * (nRafters 4 (3/10)).toNat - 2 := by
  obtain ⟨a, b, _⟩ :=
    c7_ridge_ties ⟨3, 4, 1/2, 3/10⟩ (4/5) (3/4) (7/10) (by norm_num) (by norm_num)
      (by norm_num) (by norm_num) (by norm_num) (by norm_num) (by norm_num)
      (by norm_num [RAFTER_WIDTH])
  exact ⟨a, b⟩

/-- Sign-to-center of a negated positive quantity is 1. -/
lemma signToCenter_neg (q : ℚ) (hq : 0 < q) : signToCenter (-q) = 1 := by
  simp only [signToCenter, jsSign, neg_neg]
  rw [if_neg (not_lt.mpr hq.le), if_pos hq]
  norm_num

/-- Sign-to-center of a positive quantity is −1. -/
lemma signToCenter_pos (q : ℚ) (hq : 0 < q) : signToCenter q = -1 := by
  simp only [signToCenter, jsSign]
  rw [if_pos (by linarith : -q < 0)]
  norm_num

/-- The quantity `2 ≤ pillarRowCount l` whenever the inner span is positive. -/
lemma pillarRowCount_two (l : ℚ) (h : 2 * PILLAR_SIZE < l) : 2 ≤ pillarRowCount l := by
  have hceil : 0 < ⌈(l - 2 * PILLAR_SIZE) / MAX_UNSUPPORTED_SPAN⌉ :=
    rat_ceil_pos _ _ (by linarith) (by norm_num [MAX_UNSUPPORTED_SPAN])
  simp only [pillarRowCount]
  omega

/-- First pillar row position: `-(length/2 − PILLAR_SIZE/2)`. -/
lemma pillarXPositions_headD (l : ℚ) (h : 2 * PILLAR_SIZE < l) :
    (buildPillarXPositions l (pillarCount l)).headD 0 =
      -(l / 2 - PILLAR_SIZE / 2) := by
  have hdiv2 : pillarCount l / 2 = pillarRowCount l :=
    Int.mul_ediv_cancel_left _ two_ne_zero
  have hrows2 := pillarRowCount_two l h
  obtain ⟨r, hr⟩ : ∃ r, (pillarRowCount l).toNat = r + 2 :=
    ⟨(pillarRowCount l).toNat - 2, by omega⟩
  unfold buildPillarXPositions
  rw [hdiv2, hr]
  dsimp only
  rw [show r + 2 = (r + 1) + 1 from rfl, List.range_succ_eq_map]
  simp

/-- Last pillar row position: `length/2 − PILLAR_SIZE/2`. -/
lemma pillarXPositions_getLastD (l : ℚ) (h : 2 * PILLAR_SIZE < l) :
    (buildPillarXPositions l (pillarCount l)).getLastD 0 =
      l / 2 - PILLAR_SIZE / 2 := by
  have hdiv2 : pillarCount l / 2 = pillarRowCount l :=
    Int.mul_ediv_cancel_left _ two_ne_zero
  have hrows2 := pillarRowCount_two l h
  obtain ⟨r, hr⟩ : ∃ r, (pillarRowCount l).toNat = r + 2 :=
    ⟨(pillarRowCount l).toNat - 2, by omega⟩
  unfold buildPillarXPositions
  rw [hdiv2, hr]
  dsimp only
  rw [show r + 2 = (r + 1) + 1 from rfl, List.range_succ,
    List.map_append, List.map_singleton, List.getLastD_concat]
  have hne : ((r : ℚ) + 1) ≠ 0 := by positivity
  push_cast
  field_simp
  ring

/-- Closed form of the corner knee braces: exactly twelve braces, three per
Z-side at each of the two corner pillar rows, oriented toward the interior. -/
lemma kneeBraces_closed_form (width length cos45 : ℚ)
    (hw : PILLAR_SIZE < width) (hl : 2 * PILLAR_SIZE < length) :
    buildCornerKneeBraces cos45 (buildPillarXPositions length (pillarCount length))
        width =
      let xH := length / 2 - PILLAR_SIZE / 2
      let zH := width / 2 - PILLAR_SIZE / 2
      let leg := KNEE_BRACE_LENGTH * cos45
      let yJ := PILLAR_HEIGHT + PURLIN_SIZE / 2
      [KneeBrace.mk ⟨-xH, yJ - leg, -zH⟩ ⟨-xH, yJ, -zH + leg⟩,
       KneeBrace.mk ⟨-xH, yJ - leg, -zH⟩ ⟨-xH + leg, yJ, -zH⟩,
       KneeBrace.mk ⟨-xH + leg, yJ, -zH⟩ ⟨-xH, yJ, -zH + leg⟩,
       KneeBrace.mk ⟨-xH, yJ - leg, zH⟩ ⟨-xH, yJ, zH - leg⟩,
       KneeBrace.mk ⟨-xH, yJ - leg, zH⟩ ⟨-xH + leg, yJ, zH⟩,
       KneeBrace.mk ⟨-xH + leg, yJ, zH⟩ ⟨-xH, yJ, zH - leg⟩,
       KneeBrace.mk ⟨xH, yJ - leg, -zH⟩ ⟨xH, yJ, -zH + leg⟩,
       KneeBrace.mk ⟨xH, yJ - leg, -zH⟩ ⟨xH - leg, yJ, -zH⟩,
       KneeBrace.mk ⟨xH - leg, yJ, -zH⟩ ⟨xH, yJ, -zH + leg⟩,
       KneeBrace.mk ⟨xH, yJ - leg, zH⟩ ⟨xH, yJ, zH - leg⟩,
       KneeBrace.mk ⟨xH, yJ - leg, zH⟩ ⟨xH - leg, yJ, zH⟩,
       KneeBrace.mk ⟨xH - leg, yJ, zH⟩ ⟨xH, yJ, zH - leg⟩] := by
  have hP : (0 : ℚ) < PILLAR_SIZE := by norm_num [PILLAR_SIZE]
  have hxH : (0 : ℚ) < length / 2 - PILLAR_SIZE / 2 := by linarith
  have hzH : (0 : ℚ) < width / 2 - PILLAR_SIZE / 2 := by linarith
  unfold buildCornerKneeBraces
  rw [pillarXPositions_headD length hl, pillarXPositions_getLastD length hl]
  dsimp only
  simp only [List.flatMap_cons, List.flatMap_nil, List.append_nil,
    signToCenter_neg _ hxH, signToCenter_pos _ hxH,
    signToCenter_neg _ hzH, signToCenter_pos _ hzH]
  norm_num [sub_eq_add_neg]

/-- C8 (amended): for every input with real cross-sections
(`PILLAR_SIZE < width`, `2·PILLAR_SIZE < length`), `buildStructure` emits knee
braces only at the first and last pillar rows — exactly twelve braces, three
per Z-side per corner row (pillar-to-tie-beam, pillar-to-purlin,
purlin-to-tie-beam), each displaced by the 45° leg `KNEE_BRACE_LENGTH · cos45`
toward the building interior (squared length `2·leg²`, i.e. exactly
`KNEE_BRACE_LENGTH = 1 m` for the value `cos45 = cos 45°` of the source).  The original
claim also asserted additional braces for a corner-row center/ridge pillar;
the source emits none (see the counterexample). -/
theorem c8_corner_braces (p : InputParams) (cosPitch tanPitch cos45 : ℚ)
    (hw : PILLAR_SIZE < p.width) (hl : 2 * PILLAR_SIZE < p.length) :
    (buildStructure p cosPitch tanPitch cos45).kneeBraces =
      (let xH := p.length / 2 - PILLAR_SIZE / 2
       let zH := p.width / 2 - PILLAR_SIZE / 2
       let leg := KNEE_BRACE_LENGTH * cos45
       let yJ := PILLAR_HEIGHT + PURLIN_SIZE / 2
       [KneeBrace.mk ⟨-xH, yJ - leg, -zH⟩ ⟨-xH, yJ, -zH + leg⟩,
        KneeBrace.mk ⟨-xH, yJ - leg, -zH⟩ ⟨-xH + leg, yJ, -zH⟩,
        KneeBrace.mk ⟨-xH + leg, yJ, -zH⟩ ⟨-xH, yJ, -zH + leg⟩,
        KneeBrace.mk ⟨-xH, yJ - leg, zH⟩ ⟨-xH, yJ, zH - leg⟩,
        KneeBrace.mk ⟨-xH, yJ - leg, zH⟩ ⟨-xH + leg, yJ, zH⟩,
        KneeBrace.mk ⟨-xH + leg, yJ, zH⟩ ⟨-xH, yJ, zH - leg⟩,
        KneeBrace.mk ⟨xH, yJ - leg, -zH⟩ ⟨xH, yJ, -zH + leg⟩,
        KneeBrace.mk ⟨xH, yJ - leg, -zH⟩ ⟨xH - leg, yJ, -zH⟩,
        KneeBrace.mk ⟨xH - leg, yJ, -zH⟩ ⟨xH, yJ, -zH + leg⟩,
        KneeBrace.mk ⟨xH, yJ - leg, zH⟩ ⟨xH, yJ, zH - leg⟩,
        KneeBrace.mk ⟨xH, yJ - leg, zH⟩ ⟨xH - leg, yJ, zH⟩,
        KneeBrace.mk ⟨xH - leg, yJ, zH⟩ ⟨xH, yJ, zH - leg⟩]) ∧
    (buildStructure p cosPitch tanPitch cos45).kneeBraces.length = 12 ∧
    ∀ b ∈ (buildStructure p cosPitch tanPitch cos45).kneeBraces,
      (b.endP.x - b.start.x) ^ 2 + (b.endP.y - b.start.y) ^ 2 +
          (b.endP.z - b.start.z) ^ 2 =
        2 * (KNEE_BRACE_LENGTH * cos45) ^ 2 := by
  have hlist : (buildStructure p cosPitch tanPitch cos45).kneeBraces =
      buildCornerKneeBraces cos45
        (buildPillarXPositions p.length (pillarCount p.length)) p.width := rfl
  have hcf := kneeBraces_closed_form p.width p.length cos45 hw hl
  refine ⟨hlist.trans hcf, ?_, ?_⟩
  · rw [hlist.trans hcf]
    rfl
  · intro b hb
    rw [hlist.trans hcf] at hb
    simp only [List.mem_cons, List.not_mem_nil, or_false] at hb
    rcases hb with rfl | rfl | rfl | rfl | rfl | rfl | rfl | rfl | rfl | rfl |
      rfl | rfl <;> (dsimp only; ring)

/-- Witness for C8 (amended) at width 3, length 4. -/
theorem c8_witness :
    (buildStructure ⟨3, 4, 1/2, 3/10⟩ (4/5) (3/4) (7/10)).kneeBraces.length = 12 := by
  obtain ⟨_, hlen, _⟩ :=
    c8_corner_braces ⟨3, 4, 1/2, 3/10⟩ (4/5) (3/4) (7/10)
      (by norm_num [PILLAR_SIZE]) (by norm_num [PILLAR_SIZE])
  exact hlen

/-- C8 counterexample: at width 5 (inner span 4.7 m > MAX_UNSUPPORTED_SPAN),
length 4, cos pitch 4/5, tan pitch 3/4, the model has a center/ridge pillar at
`z = 0` reaching the ridge purlin underside, yet emits only the twelve corner
braces and no knee brace touches the `z = 0` plane — contradicting the
additional center-pillar braces of the claim.  (`cos45 = 7/10` stands in for the
irrational `cos 45° ≈ 0.7071`; no brace meets `z = 0` for either value.) -/
theorem c8_counterexample :
    (∃ q ∈ (buildStructure ⟨5, 4, 1/2, 3/10⟩ (4/5) (3/4) (7/10)).pillars,
      q.base.z = 0 ∧ q.height = yRidgePurlinBottom 5 (3/4)) ∧
    (buildStructure ⟨5, 4, 1/2, 3/10⟩ (4/5) (3/4) (7/10)).kneeBraces.length = 12 ∧
    ∀ b ∈ (buildStructure ⟨5, 4, 1/2, 3/10⟩ (4/5) (3/4) (7/10)).kneeBraces,
      b.start.z ≠ 0 ∧ b.endP.z ≠ 0 := by
  have hpc : pillarCount 4 = 6 := by
    have : ⌈((4 : ℚ) - 2 * PILLAR_SIZE) / MAX_UNSUPPORTED_SPAN⌉ = 2 := by
      rw [Int.ceil_eq_iff]
      constructor <;> norm_num [PILLAR_SIZE, MAX_UNSUPPORTED_SPAN]
    unfold pillarCount pillarRowCount
    rw [this]
    rfl
  have hpos : buildPillarXPositions 4 (pillarCount 4) = [-(77/40), 0, 77/40] := by
    rw [hpc]
    unfold buildPillarXPositions
    norm_num [List.range_succ, PILLAR_SIZE, show (Int.toNat 3) = 3 from rfl]
  have hcf := kneeBraces_closed_form 5 4 (7/10)
    (by norm_num [PILLAR_SIZE]) (by norm_num [PILLAR_SIZE])
  have hlist : (buildStructure ⟨5, 4, 1/2, 3/10⟩ (4/5) (3/4) (7/10)).kneeBraces =
      buildCornerKneeBraces (7/10) (buildPillarXPositions 4 (pillarCount 4)) 5 := rfl
  refine ⟨?_, ?_, ?_⟩
  · refine ⟨Pillar.mk ⟨-(77/40), 0, 0⟩ (yRidgePurlinBottom 5 (3/4)), ?_, rfl, rfl⟩
    show Pillar.mk ⟨-(77/40), 0, 0⟩ (yRidgePurlinBottom 5 (3/4)) ∈
      buildPillars 5 (buildPillarXPositions 4 (pillarCount 4))
        (yRidgePurlinBottom 5 (3/4))
    rw [hpos]
    unfold buildPillars
    rw [List.mem_flatMap]
    refine ⟨(0, -(77/40)), ?_, ?_⟩
    · simp [List.enum]
    · rw [if_pos]
      · simp
      · constructor
        · norm_num [MAX_UNSUPPORTED_SPAN, PILLAR_SIZE]
        · left; rfl
  · rw [hlist, hcf]
    rfl
  · intro b hb
    rw [hlist, hcf] at hb
    simp only [List.mem_cons, List.not_mem_nil, or_false] at hb
    rcases hb with rfl | rfl | rfl | rfl | rfl | rfl | rfl | rfl | rfl | rfl |
      rfl | rfl <;>
      constructor <;> norm_num [PILLAR_SIZE, KNEE_BRACE_LENGTH]

/-- Witness for C6 at the concrete tangent value 1/2. -/
theorem c6_witness :
    (birdMouthAtBasePurlin (1/2)).plumbHeight = 0.03 ∧
    (∀ u : ℚ, (birdMouthAtBasePurlin u).plumbHeight = 0.03) ∧
    (birdMouthAtBasePurlin (1/2)).seatDepth =
      (birdMouthAtBasePurlin (1/2)).plumbHeight / (1/2) ∧
    (∀ u : ℚ, 1/2 < u →
      (birdMouthAtBasePurlin u).seatDepth < (birdMouthAtBasePurlin (1/2)).seatDepth) ∧
    (birdMouthAtRidgePurlin (1/2)).seatDepth = 0.05 ∧
    (birdMouthAtRidgePurlin (1/2)).plumbHeight = 0.03 ∧
    (∀ u : ℚ, birdMouthAtRidgePurlin u = birdMouthAtRidgePurlin (1/2)) :=
  c6_birdmouth_dimensions (1/2) (by norm_num)

/-- First-rafter length of a built structure: the slope length
`rafterLength width cosPitch eavesOverhang`, once at least one rafter exists. -/
lemma rafterLen0_buildStructure (p : InputParams) (cosPitch tanPitch cos45 : ℚ)
    (h : 0 < (nRafters p.length p.gableOverhang).toNat) :
    rafterLen0 (buildStructure p cosPitch tanPitch cos45) =
      rafterLength p.width cosPitch p.eavesOverhang := by
  obtain ⟨m, hm⟩ : ∃ m, (nRafters p.length p.gableOverhang).toNat = m + 1 :=
    ⟨(nRafters p.length p.gableOverhang).toNat - 1, by omega⟩
  unfold rafterLen0
  have hra : (buildStructure p cosPitch tanPitch cos45).rafters =
      leftRafters p.width p.length p.eavesOverhang p.gableOverhang cosPitch
        tanPitch ++
      rightRafters p.width p.length p.eavesOverhang p.gableOverhang cosPitch
        tanPitch := rfl
  rw [hra]
  unfold leftRafters
  rw [hm, List.range_succ_eq_map, List.map_cons, List.cons_append]
  rfl

/-- C9: when the roofing option is enabled, `buildRoofing` computes each of the
four flashing groups with `count = ceil(run / (FLASHING_LENGTH −
FLASHING_OVERLAP))` and `surface = count × FLASHING_LENGTH × developed width`,
where the eaves run (shared by dripEdge and eavesFlashing) is twice the
longitudinal span (`totalLength`), the ridge run is the longitudinal span, and
the gable run is four times the rafter length; `totalSurface` is the exact sum
of the four group surfaces.  When the roofing option is off, the flashings
group is null (`none`). -/
theorem c9_flashings (s : StructureModel) (o : RoofingOptions) :
    (o.roofing = true →
      ∃ fl, (buildRoofing s o).flashings = some fl ∧
        fl.dripEdge.count =
          ⌈s.totalLength * 2 / (FLASHING_LENGTH - FLASHING_OVERLAP)⌉ ∧
        fl.eavesFlashing.count =
          ⌈s.totalLength * 2 / (FLASHING_LENGTH - FLASHING_OVERLAP)⌉ ∧
        fl.ridgeFlashing.count =
          ⌈s.totalLength / (FLASHING_LENGTH - FLASHING_OVERLAP)⌉ ∧
        fl.gableFlashing.count =
          ⌈rafterLen0 s * 4 / (FLASHING_LENGTH - FLASHING_OVERLAP)⌉ ∧
        fl.dripEdge.surface = (fl.dripEdge.count : ℚ) * FLASHING_LENGTH *
          FLASHING_DEVELOPED_WIDTH.dripEdge ∧
        fl.eavesFlashing.surface = (fl.eavesFlashing.count : ℚ) * FLASHING_LENGTH *
          FLASHING_DEVELOPED_WIDTH.eavesFlashing ∧
        fl.ridgeFlashing.surface = (fl.ridgeFlashing.count : ℚ) * FLASHING_LENGTH *
          FLASHING_DEVELOPED_WIDTH.ridgeFlashing ∧
        fl.gableFlashing.surface = (fl.gableFlashing.count : ℚ) * FLASHING_LENGTH *
          FLASHING_DEVELOPED_WIDTH.gableFlashing ∧
        fl.totalSurface = fl.dripEdge.surface + fl.eavesFlashing.surface +
          fl.ridgeFlashing.surface + fl.gableFlashing.surface) ∧
    (o.roofing = false → (buildRoofing s o).flashings = none) := by
  obtain ⟨membrane, roofing⟩ := o
  cases roofing
  · exact ⟨fun h => by simp at h, fun _ => rfl⟩
  · exact ⟨fun _ => ⟨_, rfl, rfl, rfl, rfl, rfl, rfl, rfl, rfl, rfl, rfl⟩,
      fun h => by simp at h⟩

/-- Witness for C9 at the concrete scenario of the spec (width 3, length 4, pitch
with cos 4/5, eaves overhang 1/2, gable overhang 3/10): eaves run 9.2 m gives
5 pieces, ridge run 4.6 m gives 3 pieces, gable run 10 m gives 6 pieces. -/
theorem c9_witness :
    ∃ fl, (buildRoofing (buildStructure ⟨3, 4, 1/2, 3/10⟩ (4/5) (3/4) (7/10))
        ⟨true, true⟩).flashings = some fl ∧
      fl.dripEdge.count = 5 ∧ fl.ridgeFlashing.count = 3 ∧
      fl.gableFlashing.count = 6 := by
  obtain ⟨fl, hsome, h1, _h2, h3, h4, _⟩ :=
    (c9_flashings (buildStructure ⟨3, 4, 1/2, 3/10⟩ (4/5) (3/4) (7/10))
      ⟨true, true⟩).1 rfl
  have htl : (buildStructure ⟨3, 4, 1/2, 3/10⟩ (4/5) (3/4) (7/10)).totalLength =
      23/5 := by
    show purlinLength 4 (3/10) = 23/5
    norm_num [purlinLength]
  have hb : nBays 4 (3/10) = 6 := by
    have hsp : rafterSpanCC 4 (3/10) = 181/40 := by
      norm_num [rafterSpanCC, purlinLength, RAFTER_WIDTH]
    rw [nBays, hsp, Int.ceil_eq_iff]
    norm_num [MAX_RAFTER_SPACING]
  have hrl : rafterLen0 (buildStructure ⟨3, 4, 1/2, 3/10⟩ (4/5) (3/4) (7/10)) =
      5/2 := by
    rw [rafterLen0_buildStructure ⟨3, 4, 1/2, 3/10⟩ (4/5) (3/4) (7/10)
      (by simp only [nRafters, hb]; omega)]
    norm_num [rafterLength]
  refine ⟨fl, hsome, ?_, ?_, ?_⟩
  · rw [h1, htl, Int.ceil_eq_iff]
    norm_num [FLASHING_LENGTH, FLASHING_OVERLAP]
  · rw [h3, htl, Int.ceil_eq_iff]
    norm_num [FLASHING_LENGTH, FLASHING_OVERLAP]
  · rw [h4, hrl, Int.ceil_eq_iff]
    norm_num [FLASHING_LENGTH, FLASHING_OVERLAP]

/-- C10: `buildRoofing` never modifies the structure passed to it.  In the
state-passing embedding `buildRoofingSt`, which threads the structure through
the computation (the source body contains no assignment to `structure` or any
of its fields), the returned structure is the input, field for field, for every
structure and every combination of option flags; the first component is exactly
the roofing model `buildRoofing` computes. -/
theorem c10_structure_unchanged (s : StructureModel) (o : RoofingOptions) :
    (buildRoofingSt s o).2 = s ∧
    (buildRoofingSt s o).1 = buildRoofing s o ∧
    (buildRoofingSt s o).2.params = s.params ∧
    (buildRoofingSt s o).2.rafters = s.rafters ∧
    (buildRoofingSt s o).2.pillars = s.pillars ∧
    (buildRoofingSt s o).2.basePurlins = s.basePurlins ∧
    (buildRoofingSt s o).2.ridgePurlin = s.ridgePurlin ∧
    (buildRoofingSt s o).2.tieBeams = s.tieBeams ∧
    (buildRoofingSt s o).2.ridgeTies = s.ridgeTies ∧
    (buildRoofingSt s o).2.kneeBraces = s.kneeBraces ∧
    (buildRoofingSt s o).2.rafterSpacing = s.rafterSpacing ∧
    (buildRoofingSt s o).2.ridgeHeight = s.ridgeHeight ∧
    (buildRoofingSt s o).2.pillarHeight = s.pillarHeight ∧
    (buildRoofingSt s o).2.totalLength = s.totalLength :=
  ⟨rfl, rfl, rfl, rfl, rfl, rfl, rfl, rfl, rfl, rfl, rfl, rfl, rfl, rfl⟩

end Kertiteto
